import Mathlib

/-
  Verification development for the TextNeckGuard repository.

  Shallow embedding of the signal-processing / decision core:
  * `App`    — the Text Neck Haptic Guard page script (source: src/unnamed/part_001):
               per-frame posture check, bad-posture streak timer, penalty feedback.
  * `Wizard` — the multi-state calibration wizard (source: src/pwa/js/calibration.js).
  * `Gait`   — the gait-analysis PWA session finalization (source: src/pwa/js/app.js).
  * `Classifier` — the five-state posture classifier described in spec §4.3, whose
               implementing file is not among the provided sources (modelled from the spec).

  JS numbers are embedded as exact rationals (ℚ) except where `Math.hypot`
  forces real square roots (ℝ).  Wall-clock reads (`Date.now()`) are passed in
  as explicit `now` parameters; DOM/UI writes (status text, progress bars,
  canvas drawing) are elided, while the observable feedback effects
  (the `blur-mode` body class and `navigator.vibrate` pulses) are kept in the
  state (`blurMode` flag, `vibrationCount` pulse counter).
-/

namespace TextNeckGuard

namespace App

/-- A single pose landmark, `{x, y}` in normalized image coordinates
(the source only reads `.x` and `.y`). Source: src/unnamed/part_001. -/
structure Landmark where
  x : ℝ
  y : ℝ

/-- The six landmarks read by `onPoseResults` (indices 7–12 of
`results.poseLandmarks`). -/
structure Frame where
  leftEar : Landmark
  rightEar : Landmark
  leftMouth : Landmark
  rightMouth : Landmark
  leftShoulder : Landmark
  rightShoulder : Landmark

/-- The mutable page state of part_001 that the per-frame path touches:
`isGuardActive`, `badPostureStartTime`, `lastFeedbackTime`, `latestRatio`,
plus the two observable feedback effects: the `blur-mode` body class and a
counter of `navigator.vibrate` pulses actuated so far. -/
structure GuardState where
  isGuardActive : Bool
  badPostureStartTime : Option ℚ
  lastFeedbackTime : ℚ
  latestRatio : ℝ
  blurMode : Bool
  vibrationCount : ℕ

/-- `const FEEDBACK_COOLDOWN = 5000;` (ms). -/
def FEEDBACK_COOLDOWN : ℚ := 5000

/-- `let timeLimitMs = 5000; // Default 5s` — the initial (default) streak
time limit; it is user-configurable afterwards, so the per-frame functions
take the current limit as a parameter. -/
def timeLimitMsInit : ℚ := 5000

/-- `triggerPenalty()`: always asserts the blur effect
(`document.body.classList.add('blur-mode')`), then actuates a vibration
pulse only if `now - lastFeedbackTime > FEEDBACK_COOLDOWN`, in which case
`lastFeedbackTime` is set to `now`. -/
def triggerPenalty (now : ℚ) (s : GuardState) : GuardState :=
  let s1 := { s with blurMode := true }
  if now - s1.lastFeedbackTime > FEEDBACK_COOLDOWN then
    { s1 with vibrationCount := s1.vibrationCount + 1, lastFeedbackTime := now }
  else s1

/-- `disablePenalty()`: removes the `blur-mode` class; touches nothing else. -/
def disablePenalty (s : GuardState) : GuardState :=
  { s with blurMode := false }

/-- `handleBadPosture(isBad)`.  On a bad frame: start the streak timer if not
running (`if (!badPostureStartTime) badPostureStartTime = Date.now()` — the JS
`!` also treats a timestamp of exactly 0 as unset, which we model), compute
`duration = Date.now() - badPostureStartTime`, and call `triggerPenalty()`
when `duration > timeLimitMs` (strict).  On a good frame: null the streak
timer and call `disablePenalty()`.  Status-text / indicator-class updates are
UI-only and elided. -/
def handleBadPosture (isBad : Bool) (now timeLimitMs : ℚ) (s : GuardState) : GuardState :=
  if isBad then
    let start : ℚ :=
      match s.badPostureStartTime with
      | none => now
      | some t => if t = 0 then now else t
    let s1 := { s with badPostureStartTime := some start }
    let duration := now - start
    if duration > timeLimitMs then triggerPenalty now s1 else s1
  else
    disablePenalty { s with badPostureStartTime := none }

/-- `Math.hypot dx dy`. -/
noncomputable def hypot (dx dy : ℝ) : ℝ := Real.sqrt (dx ^ 2 + dy ^ 2)

/-- `onPoseResults(results)`: the whole per-frame path of part_001.
Early-returns when no landmarks are present; computes the mouth-midpoint to
shoulder-midpoint distance and the inter-ear distance; rejects the frame when
`distEarToEar < 0.01`; otherwise stores `latestRatio` and, if the guard is
active, runs the threshold check.  `drawDebug` and the debug-info HTML are
UI-only and elided; `badPostureThreshold` and `timeLimitMs` are module
globals read on this path, passed here as parameters. -/
noncomputable def onPoseResults (results : Option Frame) (now timeLimitMs : ℚ)
    (badPostureThreshold : ℝ) (s : GuardState) : GuardState :=
  match results with
  | none => s
  | some lm =>
    let mouthX := (lm.leftMouth.x + lm.rightMouth.x) / 2
    let mouthY := (lm.leftMouth.y + lm.rightMouth.y) / 2
    let shoulderX := (lm.leftShoulder.x + lm.rightShoulder.x) / 2
    let shoulderY := (lm.leftShoulder.y + lm.rightShoulder.y) / 2
    let distMouthToShoulder := hypot (mouthX - shoulderX) (mouthY - shoulderY)
    let distEarToEar := hypot (lm.leftEar.x - lm.rightEar.x) (lm.leftEar.y - lm.rightEar.y)
    if distEarToEar < 1/100 then s
    else
      let s1 := { s with latestRatio := distMouthToShoulder / distEarToEar }
      if !s1.isGuardActive then s1
      else if s1.latestRatio < (badPostureThreshold : ℝ) then
        handleBadPosture true now timeLimitMs s1
      else
        handleBadPosture false now timeLimitMs s1

/-- `updateThreshold()`: `badPostureThreshold = baselineRatio * sensitivity`,
then clamped from below: `if (badPostureThreshold < 0.1) badPostureThreshold = 0.1`. -/
def updateThreshold (baselineRatio sensitivity : ℚ) : ℚ :=
  let t := baselineRatio * sensitivity
  if t < 1/10 then 1/10 else t

/-- The three settings globals of part_001 written by calibration paths:
`baselineRatio`, `sensitivity`, `badPostureThreshold`. -/
structure Settings where
  baselineRatio : ℚ
  sensitivity : ℚ
  badPostureThreshold : ℚ

/-- The inter-ear distance of a frame, as `onPoseResults` computes it. -/
noncomputable def interEarDist (lm : Frame) : ℝ :=
  hypot (lm.leftEar.x - lm.rightEar.x) (lm.leftEar.y - lm.rightEar.y)

/-- Helper: a horizontal `Math.hypot` is the absolute difference. -/
theorem hypot_x (a : ℝ) : hypot a 0 = |a| := by
  simp [hypot, Real.sqrt_sq_eq_abs]

/-- Helper: a vertical `Math.hypot` is the absolute difference. -/
theorem hypot_y (a : ℝ) : hypot 0 a = |a| := by
  simp [hypot, Real.sqrt_sq_eq_abs]

end App

namespace Wizard

/-- One collected calibration sample (calibration.js `collectSample`):
`{ ratio: latestRatio, earToShoulderDist: ..., earYDiff: ... }`. -/
structure CalSample where
  ratio : ℚ
  earToShoulderDist : ℚ
  earYDiff : ℚ
  deriving DecidableEq

/-- `calibrationState.samples`: one sample list per target state. -/
structure CalSamples where
  goodPosture : List CalSample
  slouch : List CalSample
  tilt : List CalSample
  shrug : List CalSample
  deriving DecidableEq

/-- `calibrationState.thresholds` as built by `calculateThresholds()`. -/
structure CalThresholds where
  baselineRatio : ℚ
  slouchThreshold : ℚ
  tiltThreshold : ℚ
  shrugThreshold : ℚ
  calibrationDate : ℚ
  deriving DecidableEq

/-- `average(arr) = arr.reduce((sum, val) => sum + val, 0) / arr.length`.
No emptiness guard in the source (an empty array gives `0/0 = NaN` in JS;
every use below is on a list the caller made non-empty). -/
def average (arr : List ℚ) : ℚ := arr.sum / arr.length

/-- `calculateThresholds()`: averages each sample set and derives the four
thresholds; no sample-count check of any kind is performed.
`calibrationDate: Date.now()` is the wall clock, passed as `now`.
The summary HTML written to `calSummary` is UI-only and elided. -/
def calculateThresholds (s : CalSamples) (now : ℚ) : CalThresholds :=
  let avgGoodRatio := average (s.goodPosture.map (·.ratio))
  let avgSlouchRatio := average (s.slouch.map (·.ratio))
  let avgTiltEarYDiff := average (s.tilt.map (·.earYDiff))
  let avgShrugDist := average (s.shrug.map (·.earToShoulderDist))
  { baselineRatio := avgGoodRatio
    slouchThreshold := (avgGoodRatio + avgSlouchRatio) / 2
    tiltThreshold := avgTiltEarYDiff * (8/10)
    shrugThreshold := (avgGoodRatio + avgShrugDist) / 2
    calibrationDate := now }

/-- The `type` argument of `collectSample`. -/
inductive SampleType
  | goodPosture
  | slouch
  | tilt
  | shrug
  deriving DecidableEq

/-- Append a sample to the set named by `type`
(`calibrationState.samples[type].push(sample)`). -/
def pushSample (t : SampleType) (sample : CalSample) (s : CalSamples) : CalSamples :=
  match t with
  | .goodPosture => { s with goodPosture := s.goodPosture ++ [sample] }
  | .slouch => { s with slouch := s.slouch ++ [sample] }
  | .tilt => { s with tilt := s.tilt ++ [sample] }
  | .shrug => { s with shrug := s.shrug ++ [sample] }

/-- `collectSample(type)`: pushes the current measurements and, in the
`'shrug'` case only, invokes `calculateThresholds()` once the (new) shrug
count reaches 3 (`if (count >= 3) { calculateThresholds(); ... }`).
The returned Bool records whether `calculateThresholds()` was invoked.
The no-pose early return (`!latestRatio`), the progress-bar updates and the
step navigation are UI-only and elided; the sample is passed in directly. -/
def collectSample (t : SampleType) (sample : CalSample) (s : CalSamples) :
    CalSamples × Bool :=
  let s1 := pushSample t sample s
  match t with
  | .shrug => (s1, decide (3 ≤ s1.shrug.length))
  | _ => (s1, false)

/-- `saveCalibration()`'s effect on the part_001 settings globals:
`baselineRatio = thresholds.baselineRatio;
badPostureThreshold = thresholds.slouchThreshold` — note: assigned directly,
*without* going through `updateThreshold()` (no 0.1 clamp, no sensitivity
factor).  localStorage write and UI updates elided. -/
def saveCalibration (t : CalThresholds) (st : App.Settings) : App.Settings :=
  { st with baselineRatio := t.baselineRatio, badPostureThreshold := t.slouchThreshold }

end Wizard

namespace Gait

/-- The buffered per-session data that `processResults()` consumes
(src/pwa/js/app.js): `history.hipY`, `state.metrics.leans`,
`state.metrics.hipDrops`, the session duration in seconds
(`(Date.now() - state.recordingStartTime) / 1000`) and the canvas height
used to normalize oscillation. -/
structure Session where
  hipY : List ℚ
  leans : List ℚ
  hipDrops : List ℚ
  durationSec : ℚ
  canvasHeight : ℚ
  deriving DecidableEq

/-- `const avg = arr => arr.length ? arr.reduce((a, b) => a + b, 0) / arr.length : 0;`. -/
def avg (arr : List ℚ) : ℚ :=
  if arr.length = 0 then 0 else arr.sum / arr.length

/-- `Math.max(...chunk)` on a non-empty list (every use below is guarded by
`chunk.length < 10 → continue`, so the empty case never occurs; we return the
head-default 0 there). -/
def listMax : List ℚ → ℚ
  | [] => 0
  | x :: xs => xs.foldl max x

/-- `Math.min(...chunk)` on a non-empty list. -/
def listMin : List ℚ → ℚ
  | [] => 0
  | x :: xs => xs.foldl min x

/-- The chunking loop `for (let i = 0; i < history.hipY.length; i += chunkSize)
{ const chunk = history.hipY.slice(i, i + chunkSize); ... }` with
`chunkSize = 30`: consecutive slices of 30, the last one possibly shorter. -/
def sliceChunks (l : List ℚ) : List (List ℚ) :=
  if l.isEmpty then []
  else l.take 30 :: sliceChunks (l.drop 30)
termination_by l.length
decreasing_by
  rename_i h
  simp only [List.length_drop]
  have hl : l ≠ [] := by simpa [List.isEmpty_iff] using h
  have : 0 < l.length := List.length_pos.mpr hl
  omega

/-- The per-chunk oscillation amplitudes: outer guard
`if (history.hipY.length > chunkSize)`, chunks with fewer than 10 frames are
skipped (`continue`), each kept chunk contributes `max - min`. -/
def oscillations (hipY : List ℚ) : List ℚ :=
  if 30 < hipY.length then
    ((sliceChunks hipY).filter (fun c => decide (10 ≤ c.length))).map
      (fun c => listMax c - listMin c)
  else []

/-- `avgOscillationPx`: mean of the chunk amplitudes, 0 when there are none. -/
def avgOscillationPx (hipY : List ℚ) : ℚ :=
  if 0 < (oscillations hipY).length then
    (oscillations hipY).sum / (oscillations hipY).length
  else 0

/-- `oscillationPct = (avgOscillationPx / elements.canvas.height) * 100`. -/
def oscillationPct (s : Session) : ℚ :=
  avgOscillationPx s.hipY / s.canvasHeight * 100

/-- The velocity series: `for (let i = 1; i < history.hipY.length; i++)
vels.push(history.hipY[i] - history.hipY[i - 1])`. -/
def firstDiffs : List ℚ → List ℚ
  | a :: b :: rest => (b - a) :: firstDiffs (b :: rest)
  | _ => []

/-- The zero-crossing count of the velocity series:
`if ((vels[i] >= 0 && vels[i-1] < 0) || (vels[i] < 0 && vels[i-1] >= 0)) crossings++`. -/
def countCrossings : List ℚ → ℕ
  | a :: b :: rest =>
    (if (0 ≤ b ∧ a < 0) ∨ (b < 0 ∧ 0 ≤ a) then 1 else 0) + countCrossings (b :: rest)
  | _ => 0

/-- `stepCount`: 0 unless `history.hipY.length > 10`, in which case it is the
crossing count of the first-difference series. -/
def stepCount (hipY : List ℚ) : ℕ :=
  if 10 < hipY.length then countCrossings (firstDiffs hipY) else 0

/-- `calculatedCadence`: 0 unless `durationSec > 1`, in which case
`(stepCount / durationSec) * 60`. -/
def calculatedCadence (s : Session) : ℚ :=
  if 1 < s.durationSec then (stepCount s.hipY : ℚ) / s.durationSec * 60 else 0

/-- `const estimatedCadence = (calculatedCadence > 120 && calculatedCadence < 240)
? calculatedCadence : 172;`. -/
def estimatedCadence (s : Session) : ℚ :=
  if 120 < calculatedCadence s ∧ calculatedCadence s < 240 then calculatedCadence s
  else 172

/-- The record handed from `processResults()` to `showResults(...)`:
the four final numbers, nothing else (in particular no flag recording whether
the cadence fell back to 172).  Field `leanDeg` embeds `data.lean`. -/
structure ReportData where
  cadence : ℚ
  leanDeg : ℚ
  hipDrop : ℚ
  oscillation : ℚ
  deriving DecidableEq

/-- `processResults()`: finalize the session into the data passed to
`showResults` (`fps` is computed in the source but never used). -/
def processResults (s : Session) : ReportData :=
  { cadence := estimatedCadence s
    leanDeg := avg s.leans
    hipDrop := avg s.hipDrops
    oscillation := oscillationPct s }

/-- The three status labels `evaluate` can assign. -/
inductive Status
  | good
  | fair
  | improve
  deriving DecidableEq

/-- `showResults`'s `evaluate(val, targetMin, targetMax, ...)`:
Good inside the band, Fair within 5 of either bound, else Improve. -/
def evaluate (val targetMin targetMax : ℚ) : Status :=
  if targetMin ≤ val ∧ val ≤ targetMax then .good
  else if |val - targetMin| < 5 ∨ |val - targetMax| < 5 then .fair
  else .improve

/-- Everything `showResults(data)` surfaces to the user, as data: the four
values, their four status labels, the recommendation strings, and the
exercise list (names only; the rep counts and rationale strings attached to
each exercise, and all styling/markup, are elided). -/
structure Report where
  data : ReportData
  cadenceStatus : Status
  leanStatus : Status
  hipStatus : Status
  oscStatus : Status
  recs : List String
  exercises : List String
  exercisesShown : Bool
  deriving DecidableEq

/-- `showResults(data)`: statuses via `evaluate` against the fixed bands,
recommendations and exercises by threshold comparison on the same four
numbers.  Note the input is only `data` — no information about how the
numbers were obtained reaches the report. -/
def showResults (d : ReportData) : Report :=
  let recs0 :=
    (if d.cadence < 165 then ["Increase cadence (take shorter, faster steps)"] else []) ++
    (if 15 < d.leanDeg then ["Run taller, reduce forward lean"] else []) ++
    (if d.leanDeg < 2 then ["Lean slightly forward from ankles"] else []) ++
    (if 8 < d.hipDrop then ["Strengthen glutes (clamshells, bridges) to fix hip drop"] else []) ++
    (if 10 < d.oscillation then ["Focus on gliding, not bouncing up and down"] else [])
  let recs := if recs0.length = 0 then ["Great form! Keep it consistent."] else recs0
  let exercises :=
    (if 8 < d.hipDrop then ["Single-leg Glute Bridges", "Clamshells (Band)"] else []) ++
    (if d.cadence < 165 then ["Metronome Drills", "Ankle Hops"] else []) ++
    (if 15 < d.leanDeg ∨ d.leanDeg < 2 then ["Wall Drills", "Plank Variations"] else [])
  { data := d
    cadenceStatus := evaluate d.cadence 170 185
    leanStatus := evaluate d.leanDeg 2 12
    hipStatus := evaluate d.hipDrop 0 5
    oscStatus := evaluate d.oscillation 0 8
    recs := recs
    exercises := exercises
    exercisesShown := decide (exercises ≠ []) }

/-- The full surfaced report of a finalized session. -/
def sessionReport (s : Session) : Report := showResults (processResults s)

/-- Claim C9's cadence formula exactly as the spec words it: velocity = the
frame-to-frame first difference of the buffered hip-midpoint y series, step
count = the number of sign changes (zero-crossings) of that velocity series
over the whole session, cadence = (step count / session duration seconds) × 60
— with no guard on buffer length or duration. -/
def specRawCadence (s : Session) : ℚ :=
  (countCrossings (firstDiffs s.hipY) : ℚ) / s.durationSec * 60

end Gait

namespace Classifier

/-- The discrete posture states of the State Classifier (spec §3). -/
inductive PostureState
  | GOOD
  | IDLE
  | SLOUCH
  | TILT
  | SHRUG
  deriving DecidableEq

/-- The per-frame measurements the five-state classifier reads. -/
structure MetricSample where
  forwardFlexionRatio : ℚ
  earToShoulderDistance : ℚ
  lateralTiltMeasure : ℚ

/-- The calibration thresholds the five-state classifier reads (produced by
the wizard, `Wizard.calculateThresholds`). -/
structure ClassifierThresholds where
  shrugThreshold : ℚ
  badPostureThreshold : ℚ
  tiltToleranceThreshold : ℚ

/-- Modelled from the spec: the five-state State Classifier of spec §4.3.
The implementing file is missing from the provided sources — calibration.js
computes `shrugThreshold` / `tiltThreshold` and reads
`window.latestEarToShoulderDist` and `window.latestEarYDiff`, which no
provided file sets, so its companion page script (the variant whose
classifier handles SHRUG and TILT) is not under src/; part_001's
`onPoseResults` checks only the flexion ratio.  Priority order, first match
wins, per the spec: (1) no landmarks → IDLE;
(2) `earToShoulderDistance < shrugThreshold` → SHRUG;
(3) `forwardFlexionRatio < badPostureThreshold` → SLOUCH;
(4) `lateralTiltMeasure > tiltToleranceThreshold` → TILT; (5) GOOD. -/
def classify (m : Option MetricSample) (t : ClassifierThresholds) : PostureState :=
  match m with
  | none => .IDLE
  | some m =>
    if m.earToShoulderDistance < t.shrugThreshold then .SHRUG
    else if m.forwardFlexionRatio < t.badPostureThreshold then .SLOUCH
    else if m.lateralTiltMeasure > t.tiltToleranceThreshold then .TILT
    else .GOOD

end Classifier

open App Wizard Gait Classifier

/-- C1: a frame whose metrics satisfy both the shrug condition
(`earToShoulderDistance < shrugThreshold`) and the slouch condition
(`forwardFlexionRatio < badPostureThreshold`) always classifies as SHRUG and
never as SLOUCH, because the shrug check is evaluated first in the per-frame
priority order. -/
theorem c1_shrug_priority (m : MetricSample) (t : ClassifierThresholds)
    (hshrug : m.earToShoulderDistance < t.shrugThreshold)
    (hslouch : m.forwardFlexionRatio < t.badPostureThreshold) :
    classify (some m) t = PostureState.SHRUG ∧
      classify (some m) t ≠ PostureState.SLOUCH := by
  simp [classify, hshrug, hslouch]

/-- Witness for C1 at a concrete frame satisfying both conditions. -/
theorem c1_shrug_priority_witness :
    classify (some ⟨(4 : ℚ)/5, 1/10, 0⟩) ⟨3/20, 9/10, 1/2⟩ = PostureState.SHRUG ∧
      classify (some ⟨(4 : ℚ)/5, 1/10, 0⟩) ⟨3/20, 9/10, 1/2⟩ ≠ PostureState.SLOUCH :=
  c1_shrug_priority ⟨4/5, 1/10, 0⟩ ⟨3/20, 9/10, 1/2⟩ (by norm_num) (by norm_num)

/-- C4: with a bad-posture streak in progress (started at `t0`, a nonzero
timestamp) and a bad frame at time `now`, an elapsed duration exactly equal
to the configured limit does not trigger the penalty (the state is returned
unchanged), while a strictly greater elapsed duration calls
`triggerPenalty` (asserting the blur effect); the comparison is strict
`duration > timeLimitMs`. -/
theorem c4_strict_time_limit (now t0 timeLimitMs : ℚ) (s : GuardState)
    (hstreak : s.badPostureStartTime = some t0) (ht0 : t0 ≠ 0) :
    (now - t0 = timeLimitMs → handleBadPosture true now timeLimitMs s = s) ∧
      (timeLimitMs < now - t0 →
        handleBadPosture true now timeLimitMs s = triggerPenalty now s ∧
          (handleBadPosture true now timeLimitMs s).blurMode = true) := by
  have hblur : ∀ (n : ℚ) (st : GuardState), (triggerPenalty n st).blurMode = true := by
    intro n st
    simp only [triggerPenalty]
    split_ifs <;> rfl
  have hrec : ({ s with badPostureStartTime := some t0 } : GuardState) = s := by
    rw [← hstreak]
  constructor
  · intro heq
    simp [handleBadPosture, hstreak, ht0, heq, hrec]
  · intro hgt
    have heq2 : handleBadPosture true now timeLimitMs s = triggerPenalty now s := by
      simp [handleBadPosture, hstreak, ht0, hgt, hrec]
    exact ⟨heq2, heq2 ▸ hblur now s⟩

/-- Witness for C4 with the default 5000 ms limit: a streak started at
t = 1000 neither triggers at now = 6000 (elapsed exactly 5000) nor stays
silent at now = 6001 (elapsed 5001 > 5000). -/
theorem c4_strict_time_limit_witness :
    handleBadPosture true 6000 timeLimitMsInit
        ⟨true, some 1000, 0, 0, false, 0⟩ = ⟨true, some 1000, 0, 0, false, 0⟩ ∧
      handleBadPosture true 6001 timeLimitMsInit ⟨true, some 1000, 0, 0, false, 0⟩ =
        triggerPenalty 6001 ⟨true, some 1000, 0, 0, false, 0⟩ :=
  ⟨(c4_strict_time_limit 6000 1000 timeLimitMsInit _ rfl (by norm_num)).1
      (by norm_num [timeLimitMsInit]),
    ((c4_strict_time_limit 6001 1000 timeLimitMsInit _ rfl (by norm_num)).2
      (by norm_num [timeLimitMsInit])).1⟩

/-- C5: two `triggerPenalty()` calls at times `t1 ≤ t2` within
`FEEDBACK_COOLDOWN` of each other (the first itself past the cooldown of any
earlier pulse) actuate exactly one vibration pulse; the blur (visual)
penalty is asserted by both calls; and `disablePenalty()` clears only the
blur effect, leaving the cooldown timestamp (and pulse count) unchanged. -/
theorem c5_cooldown_single_pulse (s : GuardState) (t1 t2 : ℚ)
    (h1 : t1 - s.lastFeedbackTime > FEEDBACK_COOLDOWN)
    (h2 : t2 - t1 ≤ FEEDBACK_COOLDOWN) :
    (triggerPenalty t2 (triggerPenalty t1 s)).vibrationCount = s.vibrationCount + 1 ∧
      (triggerPenalty t1 s).blurMode = true ∧
      (triggerPenalty t2 (triggerPenalty t1 s)).blurMode = true ∧
      (triggerPenalty t2 (triggerPenalty t1 s)).lastFeedbackTime = t1 ∧
      (disablePenalty (triggerPenalty t2 (triggerPenalty t1 s))).blurMode = false ∧
      (disablePenalty (triggerPenalty t2 (triggerPenalty t1 s))).lastFeedbackTime =
        (triggerPenalty t2 (triggerPenalty t1 s)).lastFeedbackTime ∧
      (disablePenalty (triggerPenalty t2 (triggerPenalty t1 s))).vibrationCount =
        (triggerPenalty t2 (triggerPenalty t1 s)).vibrationCount := by
  have h2' : ¬ (FEEDBACK_COOLDOWN < t2 - t1) := not_lt.mpr h2
  simp [triggerPenalty, disablePenalty, h1, h2']

/-- Witness for C5: from a quiescent state (last pulse at 0), calls at
t = 6000 and t = 9000 (3000 ms apart) yield exactly one pulse. -/
theorem c5_cooldown_single_pulse_witness :
    (triggerPenalty 9000 (triggerPenalty 6000 ⟨true, none, 0, 0, false, 0⟩)).vibrationCount
        = 1 ∧
      (triggerPenalty 9000 (triggerPenalty 6000
        ⟨true, none, 0, 0, false, 0⟩)).blurMode = true :=
  ⟨(c5_cooldown_single_pulse ⟨true, none, 0, 0, false, 0⟩ 6000 9000
      (by norm_num [FEEDBACK_COOLDOWN]) (by norm_num [FEEDBACK_COOLDOWN])).1,
    (c5_cooldown_single_pulse ⟨true, none, 0, 0, false, 0⟩ 6000 9000
      (by norm_num [FEEDBACK_COOLDOWN]) (by norm_num [FEEDBACK_COOLDOWN])).2.2.1⟩

/-- C2: a frame whose inter-ear distance is below the 0.01 epsilon is dropped
whole: `onPoseResults` returns the state unchanged — `latestRatio` is not
updated (no MetricSample) and the streak/feedback state is neither started,
extended nor cancelled. -/
theorem c2_degenerate_frame_dropped (lm : Frame) (now timeLimitMs : ℚ)
    (badPostureThreshold : ℝ) (s : GuardState)
    (heps : interEarDist lm < 1/100) :
    onPoseResults (some lm) now timeLimitMs badPostureThreshold s = s := by
  simp only [onPoseResults]
  rw [if_pos (show hypot (lm.leftEar.x - lm.rightEar.x) (lm.leftEar.y - lm.rightEar.y) <
    1/100 from heps)]

/-- Witness for C2: ears 1/200 apart horizontally (inter-ear distance 0.005 <
0.01); the frame leaves a mid-streak state untouched. -/
theorem c2_degenerate_frame_dropped_witness :
    onPoseResults
        (some ⟨⟨1/2, 1/2⟩, ⟨1/2 + 1/200, 1/2⟩, ⟨1/2, 3/5⟩, ⟨1/2, 3/5⟩, ⟨2/5, 4/5⟩,
          ⟨3/5, 4/5⟩⟩)
        7000 5000 (17/20) ⟨true, some 1000, 0, 1, false, 0⟩ =
      ⟨true, some 1000, 0, 1, false, 0⟩ := by
  apply c2_degenerate_frame_dropped
  have h : interEarDist
      ⟨⟨1/2, 1/2⟩, ⟨1/2 + 1/200, 1/2⟩, ⟨1/2, 3/5⟩, ⟨1/2, 3/5⟩, ⟨2/5, 4/5⟩, ⟨3/5, 4/5⟩⟩ =
      |(-(1/200) : ℝ)| := by
    simp only [interEarDist]
    rw [show ((1/2 : ℝ) - (1/2 + 1/200)) = -(1/200) by norm_num,
      show ((1/2 : ℝ) - 1/2) = 0 by norm_num]
    exact hypot_x _
  rw [h, abs_neg, abs_of_nonneg (by norm_num : (0 : ℝ) ≤ 1/200)]
  norm_num

/-- C3 counterexample: a frame with no landmarks (the user left the frame,
the IDLE case) does NOT reset the bad-posture streak timer —
`onPoseResults` early-returns before touching any state, so an in-progress
streak (started at t = 1000) survives the no-landmark frame. -/
theorem c3_counterexample_idle_keeps_streak :
    (onPoseResults none 7000 5000 (17/20) ⟨true, some 1000, 0, 1, false, 0⟩).badPostureStartTime
        = some 1000 ∧
      (some (1000 : ℚ)) ≠ none := by
  exact ⟨rfl, by simp⟩

/-- C3 amended: a frame classified GOOD (`handleBadPosture(false)`) resets
the streak timer to null in a single frame (and clears the blur penalty);
but a frame with no landmarks leaves the whole state — including an
in-progress streak — unchanged (the streak is nulled only when the guard is
toggled off, a path outside the frame pipeline). -/
theorem c3_good_resets_idle_holds :
    (∀ (now timeLimitMs : ℚ) (s : GuardState),
        (handleBadPosture false now timeLimitMs s).badPostureStartTime = none ∧
          (handleBadPosture false now timeLimitMs s).blurMode = false) ∧
      ∀ (now timeLimitMs : ℚ) (th : ℝ) (s : GuardState),
        onPoseResults none now timeLimitMs th s = s := by
  refine ⟨fun now timeLimitMs s => ⟨?_, ?_⟩, fun now timeLimitMs th s => rfl⟩ <;>
    simp [handleBadPosture, disablePenalty]

/-- C6: the computed threshold fields of `calculateThresholds` are
deterministic functions of the four sample sets (only the `calibrationDate`
metadata depends on the clock), and for non-empty good and slouch sample
sets `slouchThreshold` is exactly the arithmetic midpoint of
`mean(good.ratio)` and `mean(slouch.ratio)`, hence lies between the two
means inclusive. -/
theorem c6_thresholds_deterministic_midpoint (s : CalSamples) (now now' : ℚ)
    (hgood : s.goodPosture ≠ []) (hslouch : s.slouch ≠ []) :
    ((calculateThresholds s now).baselineRatio = (calculateThresholds s now').baselineRatio ∧
      (calculateThresholds s now).slouchThreshold = (calculateThresholds s now').slouchThreshold ∧
      (calculateThresholds s now).tiltThreshold = (calculateThresholds s now').tiltThreshold ∧
      (calculateThresholds s now).shrugThreshold = (calculateThresholds s now').shrugThreshold) ∧
    (calculateThresholds s now).slouchThreshold =
      (average (s.goodPosture.map (·.ratio)) + average (s.slouch.map (·.ratio))) / 2 ∧
    min (average (s.goodPosture.map (·.ratio))) (average (s.slouch.map (·.ratio))) ≤
      (calculateThresholds s now).slouchThreshold ∧
    (calculateThresholds s now).slouchThreshold ≤
      max (average (s.goodPosture.map (·.ratio))) (average (s.slouch.map (·.ratio))) := by
  refine ⟨⟨rfl, rfl, rfl, rfl⟩, rfl, ?_, ?_⟩ <;>
  · simp only [calculateThresholds]
    rcases le_total (average (s.goodPosture.map (·.ratio)))
      (average (s.slouch.map (·.ratio))) with h | h <;>
      simp [min_def, max_def, h] <;> linarith

/-- Witness for C6 at concrete sample sets (good ratios 0.9, 1.0, 1.1;
slouch ratios 0.6, 0.7, 0.8): slouchThreshold = (1.0 + 0.7)/2 = 0.85,
between the means. -/
theorem c6_thresholds_deterministic_midpoint_witness :
    (calculateThresholds
        ⟨[⟨9/10, 0, 0⟩, ⟨1, 0, 0⟩, ⟨11/10, 0, 0⟩], [⟨3/5, 0, 0⟩, ⟨7/10, 0, 0⟩, ⟨4/5, 0, 0⟩],
          [], []⟩ 0).slouchThreshold =
      (average [9/10, 1, 11/10] + average [3/5, 7/10, 4/5]) / 2 :=
  (c6_thresholds_deterministic_midpoint
    ⟨[⟨9/10, 0, 0⟩, ⟨1, 0, 0⟩, ⟨11/10, 0, 0⟩], [⟨3/5, 0, 0⟩, ⟨7/10, 0, 0⟩, ⟨4/5, 0, 0⟩],
      [], []⟩ 0 0 (by simp) (by simp)).2.1

/-- C7 counterexample: `calculateThresholds` performs no minimum-sample
check.  Invoked with a single good-posture sample (fewer than the minimum
3), it produces definite threshold values — there is no `InsufficientSamples`
(or any other) failure path in the function. -/
theorem c7_counterexample_no_minimum_check :
    (CalSamples.goodPosture
        ⟨[⟨1, 0, 0⟩], [⟨2, 0, 0⟩, ⟨2, 0, 0⟩, ⟨2, 0, 0⟩],
          [⟨0, 0, 1⟩, ⟨0, 0, 1⟩, ⟨0, 0, 1⟩], [⟨0, 5, 0⟩, ⟨0, 5, 0⟩, ⟨0, 5, 0⟩]⟩).length < 3 ∧
      calculateThresholds
          ⟨[⟨1, 0, 0⟩], [⟨2, 0, 0⟩, ⟨2, 0, 0⟩, ⟨2, 0, 0⟩],
            [⟨0, 0, 1⟩, ⟨0, 0, 1⟩, ⟨0, 0, 1⟩], [⟨0, 5, 0⟩, ⟨0, 5, 0⟩, ⟨0, 5, 0⟩]⟩ 0 =
        ⟨1, 3/2, 4/5, 3, 0⟩ := by
  constructor
  · decide
  · simp only [calculateThresholds, average, List.map, List.sum_cons, List.sum_nil,
      List.length]
    norm_num

/-- C7 amended: the 3-sample minimum is enforced only by the wizard flow,
not by `calculateThresholds` itself — `collectSample` invokes
`calculateThresholds` (flag `true`) only when the shrug sample set has
reached at least 3 samples. -/
theorem c7_wizard_invokes_compute_only_at_minimum (t : SampleType) (sample : CalSample)
    (s : CalSamples) (hcalled : (collectSample t sample s).2 = true) :
    3 ≤ (collectSample t sample s).1.shrug.length := by
  cases t <;> simp_all [collectSample, pushSample]

/-- Witness for C7 amended: collecting the third shrug sample invokes
`calculateThresholds`, and the shrug set indeed holds 3 samples. -/
theorem c7_wizard_invokes_compute_only_at_minimum_witness :
    3 ≤ (collectSample .shrug ⟨1, 1, 1⟩
        ⟨[], [], [], [⟨1, 1, 1⟩, ⟨1, 1, 1⟩]⟩).1.shrug.length :=
  c7_wizard_invokes_compute_only_at_minimum .shrug ⟨1, 1, 1⟩
    ⟨[], [], [], [⟨1, 1, 1⟩, ⟨1, 1, 1⟩]⟩ (by decide)

/-- C10 counterexample: the wizard's `saveCalibration` is a calibration
change that assigns `badPostureThreshold = thresholds.slouchThreshold`
directly, bypassing `updateThreshold`'s 0.1 clamp: saving a profile whose
`slouchThreshold` is 0.05 leaves the active threshold at 0.05 < 0.1, not at
`max(0.1, baselineRatio × sensitivity)`. -/
theorem c10_counterexample_wizard_bypasses_clamp :
    (saveCalibration ⟨9/10, 1/20, 1/2, 1/2, 0⟩
        ⟨19/20, 17/20, updateThreshold (19/20) (17/20)⟩).badPostureThreshold = 1/20 ∧
      (1/20 : ℚ) < 1/10 ∧
      (saveCalibration ⟨9/10, 1/20, 1/2, 1/2, 0⟩
          ⟨19/20, 17/20, updateThreshold (19/20) (17/20)⟩).badPostureThreshold ≠
        max (1/10)
          ((saveCalibration ⟨9/10, 1/20, 1/2, 1/2, 0⟩
              ⟨19/20, 17/20, updateThreshold (19/20) (17/20)⟩).baselineRatio *
            (saveCalibration ⟨9/10, 1/20, 1/2, 1/2, 0⟩
              ⟨19/20, 17/20, updateThreshold (19/20) (17/20)⟩).sensitivity) := by
  refine ⟨rfl, by norm_num, ?_⟩
  simp only [saveCalibration]
  norm_num

/-- C10 amended: every update that goes through `updateThreshold` (the
sensitivity slider, the manual zero-calibration, startup) clamps the active
threshold from below at 0.1 — `updateThreshold b s = max 0.1 (b*s)` — so it
never equals the pure product when that product is below 0.1; the wizard's
`saveCalibration`/`loadCalibration` paths, however, assign the stored
`slouchThreshold` directly without this clamp. -/
theorem c10_update_threshold_clamped (b sens : ℚ) :
    updateThreshold b sens = max (1/10) (b * sens) ∧
      (b * sens < 1/10 → updateThreshold b sens ≠ b * sens) := by
  have hmax : updateThreshold b sens = max (1/10) (b * sens) := by
    simp only [updateThreshold]
    split_ifs with h
    · exact (max_eq_left h.le).symm
    · exact (max_eq_right (not_lt.mp h)).symm
  refine ⟨hmax, fun hlt => ?_⟩
  rw [hmax, max_eq_left hlt.le]
  exact fun h => absurd (h ▸ hlt) (lt_irrefl _)

/-- Witness for C10 amended at b = 1/2, sensitivity = 1/10 (product 1/20 <
1/10): the clamp forces 1/10 and the result differs from the pure product. -/
theorem c10_update_threshold_clamped_witness :
    updateThreshold (1/2) (1/10) = max (1/10) ((1/2) * (1/10)) ∧
      updateThreshold (1/2) (1/10) ≠ (1/2) * (1/10) :=
  ⟨(c10_update_threshold_clamped (1/2) (1/10)).1,
    (c10_update_threshold_clamped (1/2) (1/10)).2 (by norm_num)⟩

/-- C8 counterexample: the surfaced report does NOT mark a cadence fallback.
Two 16-frame sessions over the same duration 210/43 s — one with a constant
hip-y series (zero crossings, raw cadence 0, outside the plausible range, so
172 is substituted) and one with an oscillating hip-y series whose raw
cadence is genuinely 172 — produce *identical* full reports (values,
statuses, recommendations, exercises): the substitution is silent. -/
theorem c8_counterexample_fallback_unmarked :
    sessionReport ⟨[0, 0, 0, 0, 0, 0, 0, 0, 0, 0, 0, 0, 0, 0, 0, 0], [7, 7], [3, 3],
          210/43, 1000⟩ =
        sessionReport ⟨[0, 1, 0, 1, 0, 1, 0, 1, 0, 1, 0, 1, 0, 1, 0, 1], [7, 7], [3, 3],
          210/43, 1000⟩ ∧
      calculatedCadence ⟨[0, 0, 0, 0, 0, 0, 0, 0, 0, 0, 0, 0, 0, 0, 0, 0], [7, 7], [3, 3],
          210/43, 1000⟩ = 0 ∧
      ¬ (120 < (0 : ℚ) ∧ (0 : ℚ) < 240) ∧
      calculatedCadence ⟨[0, 1, 0, 1, 0, 1, 0, 1, 0, 1, 0, 1, 0, 1, 0, 1], [7, 7], [3, 3],
          210/43, 1000⟩ = 172 ∧
      (120 < (172 : ℚ) ∧ (172 : ℚ) < 240) := by
  have hA : calculatedCadence ⟨[0, 0, 0, 0, 0, 0, 0, 0, 0, 0, 0, 0, 0, 0, 0, 0], [7, 7],
      [3, 3], 210/43, 1000⟩ = 0 := by
    norm_num [calculatedCadence, stepCount, firstDiffs, countCrossings]
  have hB : calculatedCadence ⟨[0, 1, 0, 1, 0, 1, 0, 1, 0, 1, 0, 1, 0, 1, 0, 1], [7, 7],
      [3, 3], 210/43, 1000⟩ = 172 := by
    norm_num [calculatedCadence, stepCount, firstDiffs, countCrossings]
  have hd : processResults ⟨[0, 0, 0, 0, 0, 0, 0, 0, 0, 0, 0, 0, 0, 0, 0, 0], [7, 7],
      [3, 3], 210/43, 1000⟩ =
      processResults ⟨[0, 1, 0, 1, 0, 1, 0, 1, 0, 1, 0, 1, 0, 1, 0, 1], [7, 7], [3, 3],
        210/43, 1000⟩ := by
    norm_num [processResults, estimatedCadence, hA, hB, oscillationPct, avgOscillationPx,
      oscillations]
  refine ⟨?_, hA, by norm_num, hB, by norm_num⟩
  simp only [sessionReport]
  rw [hd]

/-- C8 amended: a raw cadence outside the open range (120, 240) is reported
as the fixed fallback 172, but silently — the surfaced report is a function
of the four final numbers alone, so a fallback session is indistinguishable
from one whose genuine cadence is 172. -/
theorem c8_fallback_value :
    (∀ s : Session, ¬ (120 < calculatedCadence s ∧ calculatedCadence s < 240) →
        (processResults s).cadence = 172) ∧
      ∀ s t : Session, processResults s = processResults t →
        sessionReport s = sessionReport t := by
  constructor
  · intro s h
    simp only [processResults, estimatedCadence, if_neg h]
  · intro s t h
    simp only [sessionReport]
    rw [h]

/-- Witness for C8 amended: a 2-frame constant session (raw cadence 0, out
of range) reports cadence 172. -/
theorem c8_fallback_value_witness :
    (processResults ⟨[1, 1], [], [], 10, 100⟩).cadence = 172 :=
  c8_fallback_value.1 ⟨[1, 1], [], [], 10, 100⟩ (by
    norm_num [calculatedCadence, stepCount, firstDiffs, countCrossings])

/-- C9 counterexample: the raw (pre-fallback) cadence is NOT always the
spec's formula.  A 5-frame session (hip-y 0,1,0,1,0) of duration 2 s has 3
velocity sign changes, so the claimed formula gives (3/2)×60 = 90, but the
code forces `stepCount = 0` whenever the buffer holds 10 or fewer frames and
therefore computes raw cadence 0. -/
theorem c9_counterexample_short_session :
    calculatedCadence ⟨[0, 1, 0, 1, 0], [], [], 2, 1000⟩ = 0 ∧
      specRawCadence ⟨[0, 1, 0, 1, 0], [], [], 2, 1000⟩ = 90 ∧
      (0 : ℚ) ≠ 90 := by
  refine ⟨?_, ?_, by norm_num⟩ <;>
    norm_num [calculatedCadence, specRawCadence, stepCount, firstDiffs, countCrossings]

/-- C9 amended: the raw cadence equals the spec's formula — first-difference
velocity, sign-change count over the whole session, (count / duration) × 60 —
provided the buffered series holds more than 10 samples and the session
duration exceeds 1 second; otherwise the code reports raw cadence 0. -/
theorem c9_cadence_formula_guarded (s : Session) (hlen : 10 < s.hipY.length)
    (hdur : 1 < s.durationSec) :
    calculatedCadence s = specRawCadence s := by
  simp only [calculatedCadence, stepCount, specRawCadence, if_pos hdur, if_pos hlen]

/-- Witness for C9 amended: a 12-frame, 2-second session, where the raw
cadence agrees with the spec formula. -/
theorem c9_cadence_formula_guarded_witness :
    calculatedCadence ⟨[0, 1, 0, 1, 0, 1, 0, 1, 0, 1, 0, 1], [], [], 2, 1000⟩ =
      specRawCadence ⟨[0, 1, 0, 1, 0, 1, 0, 1, 0, 1, 0, 1], [], [], 2, 1000⟩ :=
  c9_cadence_formula_guarded ⟨[0, 1, 0, 1, 0, 1, 0, 1, 0, 1, 0, 1], [], [], 2, 1000⟩
    (by norm_num) (by norm_num)

end TextNeckGuard
